import Mathlib

/-!
Shallow embedding of the NavMarg travel-itinerary application
(`llm_engine.py` and `app.py`).  Model-gateway calls are represented by
oracles (`Nat → Except String String`: the reply, or the exception text,
of the n-th network call made by the function under study); everything
else is translated directly from the source.
-/

set_option autoImplicit false
set_option maxRecDepth 20000

namespace NavMarg

/-! ## Python string primitives -/

/-- Whitespace characters recognised by Python `str.strip()`. -/
def is_py_space (c : Char) : Bool :=
  c = ' ' || c = '\t' || c = '\n' || c = '\r' || c = '\x0b' || c = '\x0c'

/-- Model of Python `str.strip()` with no arguments. -/
def py_strip (s : String) : String :=
  ⟨((s.data.dropWhile is_py_space).reverse.dropWhile is_py_space).reverse⟩

/-- Model of Python `str.lower()` (ASCII arguments only, which is all the app uses). -/
def py_lower (s : String) : String := ⟨s.data.map Char.toLower⟩

/-- Model of Python `str.upper()` (ASCII arguments only, which is all the app uses). -/
def py_upper (s : String) : String := ⟨s.data.map Char.toUpper⟩

/-- Split a character list at the first occurrence of (non-empty) `sep`:
the part before it and, when it occurs, the part after it.  The fuel is
at least the length of the list, so it never runs out. -/
def split1_chars (sep : List Char) : Nat → List Char → List Char × Option (List Char)
  | 0, cs => (cs, none)
  | _ + 1, [] => ([], none)
  | fuel + 1, c :: cs =>
    if (c :: cs).take sep.length = sep then ([], some ((c :: cs).drop sep.length))
    else
      match split1_chars sep fuel cs with
      | (pre, rest) => (c :: pre, rest)

/-- Model of the Python substring test `sub in s` for a non-empty `sub`. -/
def py_has_sub (s sub : String) : Bool :=
  (split1_chars sub.data (s.data.length + 1) s.data).2.isSome

/-- Model of Python `s.split(sep, 1)` for a non-empty `sep`:
one part when `sep` is absent, otherwise the text before the first
occurrence followed by the text after it. -/
def py_split1 (s sep : String) : List String :=
  match split1_chars sep.data (s.data.length + 1) s.data with
  | (pre, none) => [⟨pre⟩]
  | (pre, some post) => [⟨pre⟩, ⟨post⟩]

/-! ## Python values and exceptions -/

/-- Python values that can appear in the JSON payloads exchanged with the
model (floats never occur in the flows under study and are omitted). -/
inductive PyVal where
  | null : PyVal
  | bool : Bool → PyVal
  | int : Int → PyVal
  | str : String → PyVal
  | list : List PyVal → PyVal
  | dict : List (String × PyVal) → PyVal
deriving Repr

/-- Python exceptions raised by the code under study. -/
inductive PyError where
  | valueError : String → PyError
  | typeError : String → PyError
  | attributeError : String → PyError
  | runtimeError : String → PyError
deriving Repr, DecidableEq

/-- One replacement pass over a character list (Python `str.replace`:
all non-overlapping occurrences, scanning left to right).  The fuel is
at least the length of the list, so it never runs out. -/
def replace_chars (old new : List Char) : Nat → List Char → List Char
  | 0, cs => cs
  | _ + 1, [] => []
  | fuel + 1, c :: cs =>
    if (c :: cs).take old.length = old then
      new ++ replace_chars old new fuel ((c :: cs).drop old.length)
    else
      c :: replace_chars old new fuel cs

/-- Model of Python `s.replace(old, new)` for a non-empty `old`. -/
def py_replace (s old new : String) : String :=
  ⟨replace_chars old.data new.data (s.data.length + 1) s.data⟩

/-- Model of Python `int(s)` for a `str` argument: surrounding whitespace
is ignored, an optional sign precedes a non-empty digit run.  Returns
`none` where Python raises `ValueError` (e.g. on `"30,000"`). -/
def py_int_of_string (s : String) : Option Int :=
  let t := py_strip s
  let digits : List Char → Option Nat := fun ds =>
    if ds = [] || ds.any (fun c => ¬ c.isDigit) then none
    else some (ds.foldl (fun n c => n * 10 + (c.toNat - 48)) 0)
  match t.data with
  | '-' :: ds => (digits ds).map (fun n => -(n : Int))
  | '+' :: ds => (digits ds).map (fun n => (n : Int))
  | ds => (digits ds).map (fun n => (n : Int))

/-- Model of Python `int(v)` on a JSON-decoded value: `TypeError` for
`None`/lists/dicts, `ValueError` for a non-numeric string. -/
def py_int_of_val : PyVal → Except PyError Int
  | .int n => .ok n
  | .bool b => .ok (if b then 1 else 0)
  | .str s =>
    match py_int_of_string s with
    | some n => .ok n
    | none => .error (.valueError "invalid literal for int with base 10")
  | _ => .error (.typeError "int argument must be a string or a number")

/-- Model of Python `v.get(key, default)`: an `AttributeError` when `v`
is not a dict (as in `day.get(...)` on a non-dict day entry). -/
def py_dict_get (v : PyVal) (key : String) (dflt : PyVal) : Except PyError PyVal :=
  match v with
  | .dict d => .ok ((d.lookup key).getD dflt)
  | _ => .error (.attributeError "object has no attribute get")

/-- Model of `isinstance(v, dict)`. -/
def pv_is_dict : PyVal → Bool
  | .dict _ => true
  | _ => false

/-- Model of the Python containment test `key in v` for the dict case
(the only case the code reaches it on). -/
def pv_has_key (v : PyVal) (key : String) : Bool :=
  match v with
  | .dict d => (d.lookup key).isSome
  | _ => false

/-! ## Model of `json.loads`

A fuel-indexed recursive-descent parser for the JSON fragment the app
exchanges with the model (objects, arrays, strings with simple escapes,
integers, `true`/`false`/`null`).  `json.loads` raises
`json.JSONDecodeError` (a `ValueError`) on failure; the model returns
`none` there.  The fuel is one more than the input length, which always
suffices because every recursive call consumes at least one character. -/

def lbrace : Char := Char.ofNat 123

def rbrace : Char := Char.ofNat 125

def json_ws (c : Char) : Bool := c = ' ' || c = '\t' || c = '\n' || c = '\r'

def json_escape (c : Char) : Option Char :=
  if c = '"' then some '"'
  else if c = '\\' then some '\\'
  else if c = '/' then some '/'
  else if c = 'n' then some '\n'
  else if c = 't' then some '\t'
  else if c = 'r' then some '\r'
  else if c = 'b' then some (Char.ofNat 8)
  else if c = 'f' then some (Char.ofNat 12)
  else none

/-- Parse the body of a JSON string literal after the opening quote. -/
def json_str_chars : List Char → Option (List Char × List Char)
  | [] => none
  | c :: rest =>
    if c = '"' then some ([], rest)
    else if c = '\\' then
      match rest with
      | [] => none
      | e :: rest2 =>
        match json_escape e with
        | none => none
        | some ch =>
          match json_str_chars rest2 with
          | none => none
          | some (s, r) => some (ch :: s, r)
    else
      match json_str_chars rest with
      | none => none
      | some (s, r) => some (c :: s, r)

/-- Parse a JSON integer (optional minus, digit run). -/
def json_number (cs : List Char) : Option (PyVal × List Char) :=
  match cs with
  | '-' :: cs2 =>
    match cs2.takeWhile Char.isDigit with
    | [] => none
    | ds => some (.int (-(ds.foldl (fun n c => n * 10 + (c.toNat - 48)) 0 : Nat) : Int),
                  cs2.dropWhile Char.isDigit)
  | _ =>
    match cs.takeWhile Char.isDigit with
    | [] => none
    | ds => some (.int ((ds.foldl (fun n c => n * 10 + (c.toNat - 48)) 0 : Nat) : Int),
                  cs.dropWhile Char.isDigit)

mutual

/-- Parse one JSON value, leading whitespace allowed. -/
def json_value : Nat → List Char → Option (PyVal × List Char)
  | 0, _ => none
  | fuel + 1, cs =>
    match cs.dropWhile json_ws with
    | 't' :: 'r' :: 'u' :: 'e' :: rest => some (.bool true, rest)
    | 'f' :: 'a' :: 'l' :: 's' :: 'e' :: rest => some (.bool false, rest)
    | 'n' :: 'u' :: 'l' :: 'l' :: rest => some (.null, rest)
    | c :: rest =>
      if c = '"' then
        match json_str_chars rest with
        | none => none
        | some (s, r) => some (.str ⟨s⟩, r)
      else if c = lbrace then
        match (rest.dropWhile json_ws) with
        | c2 :: rest2 =>
          if c2 = rbrace then some (.dict [], rest2)
          else
            match json_members fuel (rest.dropWhile json_ws) with
            | none => none
            | some (d, r) => some (.dict d, r)
        | [] => none
    else if c = '[' then
        match (rest.dropWhile json_ws) with
        | ']' :: rest2 => some (.list [], rest2)
        | _ =>
          match json_elements fuel rest with
          | none => none
          | some (l, r) => some (.list l, r)
      else json_number (c :: rest)
    | [] => none

/-- Parse a non-empty `"key": value` list followed by the closing brace. -/
def json_members : Nat → List Char → Option (List (String × PyVal) × List Char)
  | 0, _ => none
  | fuel + 1, cs =>
    match cs with
    | c :: rest =>
      if c = '"' then
        match json_str_chars rest with
        | none => none
        | some (k, r1) =>
          match r1.dropWhile json_ws with
          | ':' :: r2 =>
            match json_value fuel r2 with
            | none => none
            | some (v, r3) =>
              match r3.dropWhile json_ws with
              | ',' :: r4 =>
                match json_members fuel (r4.dropWhile json_ws) with
                | none => none
                | some (d, r5) => some ((⟨k⟩, v) :: d, r5)
              | c2 :: r4 =>
                if c2 = rbrace then some ([(⟨k⟩, v)], r4) else none
              | [] => none
          | _ => none
      else none
    | [] => none

/-- Parse a non-empty value list followed by the closing bracket. -/
def json_elements : Nat → List Char → Option (List PyVal × List Char)
  | 0, _ => none
  | fuel + 1, cs =>
    match json_value fuel cs with
    | none => none
    | some (v, r1) =>
      match r1.dropWhile json_ws with
      | ',' :: r2 =>
        match json_elements fuel r2 with
        | none => none
        | some (l, r3) => some (v :: l, r3)
      | ']' :: r2 => some ([v], r2)
      | _ => none

end

/-- Model of `json.loads`: one value, whole input consumed. -/
def json_loads (s : String) : Option PyVal :=
  match json_value (s.length + 1) s.data with
  | some (v, rest) => if rest.dropWhile json_ws = [] then some v else none
  | none => none

/-! ## `llm_engine.py` -/

/-- Line 64: `raw.split("```json", 1)[1].split("```", 1)[0].strip()` —
the text between the first occurrence of the backtick-json marker and
the next backtick fence. -/
def fence_json_interior (raw : String) : String :=
  py_strip ((py_split1 ((py_split1 raw "```json").getD 1 "") "```").getD 0 "")

/-- Line 66: `raw.split("```", 1)[1].split("```", 1)[0].strip()` — the
interior of the first plain backtick fence. -/
def fence_any_interior (raw : String) : String :=
  py_strip ((py_split1 ((py_split1 raw "```").getD 1 "") "```").getD 0 "")

/-- `llm_engine._extract_json`: try the whole (stripped) text; if that
fails, cut out one fenced block — the block at the backtick-json marker
when that marker occurs anywhere, otherwise the first plain backtick
block — and parse the cut text.  `json.loads` failure on that final
candidate propagates. -/
def _extract_json (text : String) : Except PyError PyVal :=
  let raw := py_strip text
  match json_loads raw with
  | some v => .ok v
  | none =>
    let raw2 :=
      if py_has_sub raw "```json" then fence_json_interior raw
      else if py_has_sub raw "```" then fence_any_interior raw
      else raw
    match json_loads raw2 with
    | some v => .ok v
    | none => .error (.valueError "JSONDecodeError")

/-- Modelled from the spec (claim side, for comparison): the extraction
algorithm as the specification describes it — direct parse, then the
labeled-fence interior, then, when that also fails, the interior of any
fence; failure only when every attempt fails. -/
def extract_json_spec (text : String) : Except PyError PyVal :=
  let raw := py_strip text
  match json_loads raw with
  | some v => .ok v
  | none =>
    match json_loads (fence_json_interior raw) with
    | some v => .ok v
    | none =>
      match json_loads (fence_any_interior raw) with
      | some v => .ok v
      | none => .error (.valueError "JSONDecodeError")

/-- `llm_engine._call_llm`, with the network exchange abstracted as an
oracle indexed by the position of the call inside the calling function:
a provider exception becomes `RuntimeError`, blank content becomes
`ValueError`, and the content is returned stripped. -/
def call_llm (oracle : Nat → Except String String) (idx : Nat) : Except PyError String :=
  match oracle idx with
  | .error exc => .error (.runtimeError ("LLM request failed: " ++ exc))
  | .ok content =>
    if py_strip content = "" then .error (.valueError "LLM returned an empty response.")
    else .ok (py_strip content)

/-- Loop body of `llm_engine._sum_day_costs`: `int(day.get("estimated_cost", 0))`
per day, where an `int` failure (TypeError or ValueError) is re-raised as
the fixed `ValueError`, and a non-dict day raises `AttributeError`. -/
def _sum_day_costs_from (total : Int) : List PyVal → Except PyError Int
  | [] => .ok total
  | day :: rest =>
    match py_dict_get day "estimated_cost" (.int 0) with
    | .error e => .error e
    | .ok value =>
      match py_int_of_val value with
      | .ok n => _sum_day_costs_from (total + n) rest
      | .error _ => .error (.valueError "Invalid day estimated_cost in planner output.")

/-- `llm_engine._sum_day_costs` (iterating a non-list raises `TypeError`). -/
def _sum_day_costs (days : PyVal) : Except PyError Int :=
  match days with
  | .list l => _sum_day_costs_from 0 l
  | _ => .error (.typeError "object is not iterable")

/-- The five-way budget-breakdown read:
`int(budget_parts.get(part, 0))`. -/
def bb_part (budget_parts : PyVal) (part : String) : Except PyError Int :=
  match py_dict_get budget_parts part (.int 0) with
  | .error e => .error e
  | .ok v => py_int_of_val v

/-- The five-way breakdown sum
`int(.. "stay" ..) + int(.. "food" ..) + int(.. "transport" ..) +
int(.. "activities" ..) + int(.. "buffer" ..)`, evaluated left to right
as Python does. -/
def bb_sum (budget_parts : PyVal) : Except PyError Int :=
  match bb_part budget_parts "stay" with
  | .error e => .error e
  | .ok stay =>
    match bb_part budget_parts "food" with
    | .error e => .error e
    | .ok food =>
      match bb_part budget_parts "transport" with
      | .error e => .error e
      | .ok transport =>
        match bb_part budget_parts "activities" with
        | .error e => .error e
        | .ok activities =>
          match bb_part budget_parts "buffer" with
          | .error e => .error e
          | .ok buffer => .ok (stay + food + transport + activities + buffer)

/-- The arithmetic-verification block of `generate_plan`
(lines 257–266 and, identically, 283–292): day-cost sum, coerced
`total_estimated_cost`, and the five-component breakdown sum. -/
def plan_sums (raw_plan : PyVal) : Except PyError (Int × Int × Int) :=
  match py_dict_get raw_plan "days" (.list []) with
  | .error e => .error e
  | .ok days =>
    match _sum_day_costs days with
    | .error e => .error e
    | .ok days_sum =>
      match py_dict_get raw_plan "total_estimated_cost" (.int 0) with
      | .error e => .error e
      | .ok tv =>
        match py_int_of_val tv with
        | .error e => .error e
        | .ok total_estimated =>
          match py_dict_get raw_plan "budget_breakdown" (.dict []) with
          | .error e => .error e
          | .ok budget_parts =>
            match bb_sum budget_parts with
            | .error e => .error e
            | .ok budget_sum => .ok (days_sum, total_estimated, budget_sum)

/-- The invariant test guarding both the correction call and the final
`PlanningError`: `days_sum != total_estimated or total_estimated > total_budget
or budget_sum != total_budget`. -/
def invariants_violated (s : Int × Int × Int) (total_budget : Int) : Bool :=
  s.1 ≠ s.2.1 || s.2.1 > total_budget || s.2.2 ≠ total_budget

/-- Trip-slot store: the Python dict of the twelve slot strings. -/
abbrev Slots := List (String × String)

/-- Python `slots.get(key, default)`. -/
def Slots.get (s : Slots) (key dflt : String) : String := (s.lookup key).getD dflt

/-- Python `slots[key] = value`. -/
def Slots.set (s : Slots) (key value : String) : Slots :=
  if s.any (fun p => p.1 = key) then
    s.map (fun p => if p.1 = key then (key, value) else p)
  else s ++ [(key, value)]

/-- `llm_engine._build_trip_context`: the order-stable context block. -/
def _build_trip_context (slots : Slots) : String :=
  String.intercalate "\n"
    (["origin", "destination", "start_date", "end_date", "travel_type", "adults",
      "children", "budget", "budget_tier", "interests", "pace",
      "experience"].map (fun key => key ++ ": " ++ Slots.get slots key ""))

/-- The error message of the terminal planning failure. -/
def budget_guardrail_msg : String :=
  "Budget guardrail failed. Planner returned inconsistent costs."

/-- `<br>` cleanup applied to the humanizer output (line 322). -/
def strip_br (s : String) : String :=
  py_replace (py_replace (py_replace s "<br>" "\n") "<br/>" "\n") "<br />" "\n"

/-- The humanizer call (lines 296–323): one model call whose text, after
`<br>` cleanup, is returned beside the validated draft.  `idx` is the
position of this call among the model calls of the enclosing
`generate_plan` invocation; the second component counts the calls made. -/
def humanizer_stage (oracle : Nat → Except String String) (idx : Nat) (raw_plan : PyVal) :
    Except PyError (PyVal × String) × Nat :=
  match call_llm oracle idx with
  | .error e => (.error e, idx + 1)
  | .ok final_plan => (.ok (raw_plan, strip_br final_plan), idx + 1)

/-- The planner stage of `generate_plan` (lines 248–266): first model
call, extraction, the `isinstance`/required-key checks, the coercion of
the declared budget, and the first arithmetic verification. -/
def first_stage (oracle : Nat → Except String String) (slots : Slots) :
    Except PyError (PyVal × Int × (Int × Int × Int)) :=
  match call_llm oracle 0 with
  | .error e => .error e
  | .ok raw_plan_text =>
    match _extract_json raw_plan_text with
    | .error e => .error e
    | .ok raw_plan =>
      if ¬ pv_is_dict raw_plan then
        .error (.valueError "Planner did not return a valid JSON object.")
      else if ¬ (pv_has_key raw_plan "days" ∧ pv_has_key raw_plan "budget_breakdown") then
        .error (.valueError "Planner output missing required keys.")
      else
        match py_int_of_string (Slots.get slots "budget" "0") with
        | none => .error (.valueError "invalid literal for int with base 10")
        | some total_budget =>
          match plan_sums raw_plan with
          | .error e => .error e
          | .ok s => .ok (raw_plan, total_budget, s)

/-- The correction call and its re-verification (lines 269–292):
extraction and sums of the corrected draft, without the `isinstance`
check that only the first draft receives. -/
def correction_checks (oracle : Nat → Except String String) :
    Except PyError (PyVal × (Int × Int × Int)) :=
  match call_llm oracle 1 with
  | .error e => .error e
  | .ok corrected_text =>
    match _extract_json corrected_text with
    | .error e => .error e
    | .ok raw_plan =>
      match plan_sums raw_plan with
      | .error e => .error e
      | .ok s => .ok (raw_plan, s)

/-- The single bounded correction retry (lines 268–294): one model call;
a second invariant violation is the terminal `ValueError` of line 294. -/
def correction_stage (oracle : Nat → Except String String) (total_budget : Int) :
    Except PyError (PyVal × String) × Nat :=
  match correction_checks oracle with
  | .error e => (.error e, 2)
  | .ok (raw_plan, s) =>
    if invariants_violated s total_budget then
      (.error (.valueError budget_guardrail_msg), 2)
    else humanizer_stage oracle 2 raw_plan

/-- `llm_engine.generate_plan`.  The oracle gives the outcome of the
n-th model call of this invocation; the prompt strings the source builds
from `slots`, `previous_itinerary` and `change_request` do not influence
the model further than through the oracle, so they are not re-built here.
Returns the validated structured draft (which the source serialises with
`json.dumps` on return) and the humanized text, paired with the number of
model calls issued. -/
def generate_plan (oracle : Nat → Except String String) (slots : Slots)
    (previous_itinerary change_request : Option String) :
    Except PyError (PyVal × String) × Nat :=
  match first_stage oracle slots with
  | .error e => (.error e, 1)
  | .ok (raw_plan, total_budget, s) =>
    if invariants_violated s total_budget then correction_stage oracle total_budget
    else humanizer_stage oracle 1 raw_plan

/-- The fixed greeting set of `run_guardrail`. -/
def greetings : List String :=
  ["hi", "hello", "hey", "hii", "yo", "hola", "good morning", "good evening"]

/-- The fixed unsafe-fragment list of `run_guardrail`. -/
def banned_fragments : List String :=
  ["ignore previous", "reveal system prompt", "hack", "exploit"]

/-- The dict returned for empty input. -/
def offtopic_result : PyVal :=
  .dict [("decision", .str "OFFTOPIC"), ("reason", .str "Empty message"),
         ("assistant_message",
          .str "Please share a valid reply so I can continue your trip planning.")]

/-- The dict returned for a greeting. -/
def greeting_result : PyVal :=
  .dict [("decision", .str "GREETING"), ("reason", .str "Greeting"),
         ("assistant_message", .str "")]

/-- The dict returned for a banned fragment. -/
def blocked_result : PyVal :=
  .dict [("decision", .str "UNSAFE"), ("reason", .str "Prompt injection or unsafe intent"),
         ("assistant_message",
          .str "I can only help with travel planning. Please share trip-related details.")]

/-- Python `parsed.setdefault`-style patch of lines 127–130: default the
`assistant_message` and `reason` keys to the empty string. -/
def patch_defaults (d : List (String × PyVal)) : List (String × PyVal) :=
  let d1 := if (d.lookup "assistant_message").isSome then d
            else d ++ [("assistant_message", .str "")]
  if (d1.lookup "reason").isSome then d1 else d1 ++ [("reason", .str "")]

/-- `llm_engine.run_guardrail`: heuristic short circuits (empty input,
greeting, banned fragment) before the classifier model call; the model
path extracts JSON and requires a `decision` key.  The second component
counts model calls (the short circuits run before the client is even
built, so they make none). -/
def run_guardrail (oracle : Nat → Except String String) (user_text : String)
    (expected_slot : Option String) : Except PyError PyVal × Nat :=
  let stripped := py_strip user_text
  if stripped = "" then (.ok offtopic_result, 0)
  else
    let lower := py_lower stripped
    if greetings.contains lower then (.ok greeting_result, 0)
    else if banned_fragments.any (fun fragment => py_has_sub lower fragment) then
      (.ok blocked_result, 0)
    else
      match call_llm oracle 0 with
      | .error e => (.error e, 1)
      | .ok raw =>
        match _extract_json raw with
        | .error e => (.error e, 1)
        | .ok parsed =>
          if ¬ pv_has_key parsed "decision" then
            (.error (.valueError "Guardrail output missing decision."), 1)
          else
            match parsed with
            | .dict d => (.ok (.dict (patch_defaults d)), 1)
            | _ => (.error (.valueError "Guardrail output missing decision."), 1)

/-! ## `app.py` -/

/-- A Python `datetime.date` (the constructor validates its fields; here
validity is carried by the parser and by hypotheses). -/
structure PyDate where
  year : Nat
  month : Nat
  day : Nat
deriving Repr, DecidableEq

/-- Python `date.__lt__`: lexicographic on (year, month, day). -/
def py_date_lt (a b : PyDate) : Bool :=
  a.year < b.year ||
    (a.year = b.year && (a.month < b.month || (a.month = b.month && a.day < b.day)))

def is_leap_year (y : Nat) : Bool := y % 4 = 0 && (y % 100 ≠ 0 || y % 400 = 0)

def days_in_month (y m : Nat) : Nat :=
  if m = 2 then (if is_leap_year y then 29 else 28)
  else if m = 4 || m = 6 || m = 9 || m = 11 then 30
  else 31

def digit_val (c : Char) : Option Nat :=
  if c.isDigit then some (c.toNat - 48) else none

/-- Python `date.fromisoformat` on the `YYYY-MM-DD` layout the app asks
for: ten characters, dashed, with calendar validation (month range, day
range with leap years, year at least 1). -/
def date_fromisoformat (s : String) : Option PyDate :=
  match s.data with
  | [y1, y2, y3, y4, '-', m1, m2, '-', d1, d2] =>
    match digit_val y1, digit_val y2, digit_val y3, digit_val y4,
          digit_val m1, digit_val m2, digit_val d1, digit_val d2 with
    | some a, some b, some c, some d, some e, some f, some g, some h =>
      let y := ((a * 10 + b) * 10 + c) * 10 + d
      let m := e * 10 + f
      let dd := g * 10 + h
      if 1 ≤ y ∧ 1 ≤ m ∧ m ≤ 12 ∧ 1 ≤ dd ∧ dd ≤ days_in_month y m then
        some ⟨y, m, dd⟩
      else none
    | _, _, _, _, _, _, _, _ => none
  | _ => none

/-- `app._parse_int`: `int(value.replace(",", "").strip())`. -/
def _parse_int (value : String) : Option Int :=
  py_int_of_string (py_strip (py_replace value "," ""))

/-- Date-format-and-past check of `validate_slot` (lines 213–219):
`some` is an early return. -/
def check_date_slot (today : PyDate) (value : String) : Option (Bool × String) :=
  match date_fromisoformat (py_strip value) with
  | some parsed =>
    if py_date_lt parsed today then
      some (false, "Date cannot be in the past. Please use YYYY-MM-DD.")
    else none
  | none => some (false, "Invalid date format. Please use YYYY-MM-DD.")

/-- End-after-start check of `validate_slot` (lines 221–228): both dates
are re-parsed inside one `try`, so either parse failing yields the
invalid-end-date message. -/
def check_end_after_start (slots : Slots) (value : String) : Option (Bool × String) :=
  let start_date := Slots.get slots "start_date" ""
  if start_date = "" then none
  else
    match date_fromisoformat (py_strip value), date_fromisoformat start_date with
    | some e, some s =>
      if py_date_lt e s then some (false, "End date cannot be before start date.")
      else none
    | _, _ => some (false, "Invalid end date. Please use YYYY-MM-DD.")

/-- Numeric checks of `validate_slot` (lines 230–240). -/
def check_number_slot (slot value : String) : Option (Bool × String) :=
  match _parse_int value with
  | none => some (false, "Please provide a valid number for " ++ slot ++ ".")
  | some parsed_int =>
    if slot = "adults" ∧ parsed_int < 1 then
      some (false, "At least 1 adult is required.")
    else if slot = "children" ∧ parsed_int < 0 then
      some (false, "Children cannot be negative.")
    else if slot = "budget" ∧ parsed_int < 1000 then
      some (false, "Budget should be at least 1000 INR.")
    else none

/-- `app.validate_slot`: the sequence of guarded early returns in the source,
threaded as an option chain; `date.today()` is passed in. -/
def validate_slot (today : PyDate) (slots : Slots) (slot value : String) : Bool × String :=
  if py_strip value = "" then
    (false, "This answer is empty. Please provide a valid value.")
  else
    match (if slot = "start_date" || slot = "end_date" then check_date_slot today value
           else none) with
    | some r => r
    | none =>
      match (if slot = "end_date" then check_end_after_start slots value else none) with
      | some r => r
      | none =>
        match (if slot = "adults" || slot = "children" || slot = "budget" then
                 check_number_slot slot value
               else none) with
        | some r => r
        | none => (true, "")

/-- `app.QUESTIONS`: the fixed ordered slot/question list. -/
def QUESTIONS : List (String × String) :=
  [("origin", "What is your origin city?"),
   ("destination", "What is your destination city?"),
   ("start_date", "What is your trip start date? (YYYY-MM-DD)"),
   ("end_date", "What is your trip end date? (YYYY-MM-DD)"),
   ("travel_type", "What is your travel type? (Solo/Couple/Family/Friends/Business Trip/Group Tour)"),
   ("adults", "How many adults (13+) are traveling?"),
   ("children", "How many children (0-12) are traveling?"),
   ("budget", "What is your total budget in INR?"),
   ("budget_tier", "What budget tier do you prefer? (Budget/Mid-range/Luxury etc.)"),
   ("interests", "What are your main interests? (comma separated)"),
   ("pace", "What travel pace do you prefer? (Relaxed/Balanced/Active)"),
   ("experience", "What experience style do you want? (Must-see/Hidden Gems/Mix/Local/Instagrammable)")]

/-- The per-session state `handle_slot_filling` reads and writes
(`st.session_state`), restricted to the fields it touches; `messages`
records the assistant replies it emits. -/
structure SessionState where
  agent_state : String
  current_question_idx : Nat
  slots : Slots
  messages : List String
deriving Repr

/-- `app._format_navmarg_intro`. -/
def navmarg_intro : String :=
  "Hello, I am **NavMarg**, your AI travel advisor. I can help you design a complete, personalized itinerary for your trip."

/-- The fallback dict of the `except` clause around `run_guardrail`
(lines 328–329). -/
def guardrail_fallback : PyVal :=
  .dict [("decision", .str "ALLOW"), ("assistant_message", .str ""),
         ("reason", .str "Guardrail fallback")]

/-- The normalization step (lines 343–346): `refine_user_answer` is an
external model call whose outcome is passed in; on any exception the
stripped raw text is used. -/
def normalized_of (norm_outcome : Except PyError String) (user_text : String) : String :=
  match norm_outcome with
  | .ok v => v
  | .error _ => py_strip user_text

/-- The message worded for `OFFTOPIC`/`UNSAFE` replies: the
`assistant_message` when it is a non-empty string, else the fixed
fallback (Python `or` on a falsy value). -/
def offtopic_message (mv : PyVal) : String :=
  match mv with
  | .str s => if s = "" then "Please share travel-related input so I can continue." else s
  | _ => "Please share travel-related input so I can continue."

/-- Python `v.upper()` demands a string receiver. -/
def py_str_upper_of (v : PyVal) : Except PyError String :=
  match v with
  | .str s => .ok (py_upper s)
  | _ => .error (.attributeError "object has no attribute upper")

/-- The re-ask text of `app._ask_next_question`. -/
def ask_question_text (q : String × String) : String :=
  q.2 ++ "\n\n`(Field: " ++ q.1 ++ ")`"

/-- Lines 326–329: the guardrail result, or the `ALLOW` fallback dict
when the call raised. -/
def decision_of (guard_outcome : Except PyError PyVal) : PyVal :=
  match guard_outcome with
  | .ok d => d
  | .error _ => guardrail_fallback

/-- `app.handle_slot_filling`.  The two model calls it makes —
`run_guardrail` and `refine_user_answer` — are passed as their outcomes;
`today` feeds the date validation.  The result pairs the updated session
state with a flag that is true exactly when the slot set became complete
and `_generate_initial_itinerary` would run (that handoff issues further
model calls and is modelled separately by `generate_plan`). -/
def handle_slot_filling (guard_outcome : Except PyError PyVal)
    (norm_outcome : Except PyError String) (today : PyDate)
    (st : SessionState) (user_text : String) : Except PyError (SessionState × Bool) :=
  let sq := QUESTIONS.getD st.current_question_idx ("", "")
  let slot := sq.1
  let question := sq.2
  let decision := decision_of guard_outcome
  match py_dict_get decision "decision" (.str "ALLOW") with
  | .error e => .error e
  | .ok dv =>
    match py_str_upper_of dv with
    | .error e => .error e
    | .ok decision_name =>
      if decision_name = "GREETING" then
        .ok ({ st with messages := st.messages ++
                [navmarg_intro, "Please answer this first:\n\n" ++ question] }, false)
      else if decision_name = "OFFTOPIC" || decision_name = "UNSAFE" then
        match py_dict_get decision "assistant_message" .null with
        | .error e => .error e
        | .ok mv =>
          .ok ({ st with messages := st.messages ++
                  [offtopic_message mv ++ "\n\nCurrent question: " ++ question] }, false)
      else
        let normalized := normalized_of norm_outcome user_text
        let vr := validate_slot today st.slots slot normalized
        if vr.1 = false then
          .ok ({ st with messages := st.messages ++
                  [vr.2 ++ "\n\nPlease answer again:\n" ++ question] }, false)
        else
          let slots2 := Slots.set st.slots slot (py_strip normalized)
          let idx2 := st.current_question_idx + 1
          if idx2 < QUESTIONS.length then
            let msgs2 := st.messages ++ [ask_question_text (QUESTIONS.getD idx2 ("", ""))]
            .ok ({ st with slots := slots2, current_question_idx := idx2, messages := msgs2 }, false)
          else
            .ok ({ st with slots := slots2, current_question_idx := idx2 }, true)

/-! ## Theorems -/

/-- C3: an input that is empty or whitespace-only yields `OFFTOPIC` with
zero model calls; an input whose stripped, lowercased form is in the
fixed greeting set yields `GREETING` with an empty `assistant_message`
and zero model calls. -/
theorem c3_guardrail_short_circuits (oracle : Nat → Except String String)
    (user_text : String) (expected_slot : Option String) :
    (py_strip user_text = "" →
      run_guardrail oracle user_text expected_slot = (.ok offtopic_result, 0)) ∧
    (py_strip user_text ≠ "" →
      py_lower (py_strip user_text) ∈ greetings →
      run_guardrail oracle user_text expected_slot = (.ok greeting_result, 0)) := by
  constructor
  · intro h
    simp [run_guardrail, h]
  · intro h1 h2
    simp [run_guardrail, h1, h2]

/-- Witness for C3 at the whitespace-only input `"   "` and the greeting
input `" HeLLo "`. -/
theorem c3_witness :
    run_guardrail (fun _ => .error "gateway down") "   " none = (.ok offtopic_result, 0) ∧
    run_guardrail (fun _ => .error "gateway down") " HeLLo " none = (.ok greeting_result, 0) :=
  ⟨(c3_guardrail_short_circuits _ "   " none).1 (by decide),
   (c3_guardrail_short_circuits _ " HeLLo " none).2 (by decide) (by decide)⟩

/-- The concrete reply showing the missing generic-fence fallback: the
text as a whole is not JSON, the labeled-fence interior `oops` is not
JSON, but the first plain fence holds a JSON object. -/
def c4_reply : String := "``` \x7b\"a\": 1\x7d ``` then ```json oops```"

/-- C4 counterexample: on `c4_reply` every attempt the claim lists fails
except the any-fence attempt, which recovers a structured value — yet
`_extract_json` raises a parse error, because the `elif` commits to the
labeled fence and never tries the plain one. -/
theorem c4_counterexample :
    json_loads (py_strip c4_reply) = none ∧
    json_loads (fence_json_interior (py_strip c4_reply)) = none ∧
    json_loads (fence_any_interior (py_strip c4_reply)) = some (.dict [("a", .int 1)]) ∧
    _extract_json c4_reply = .error (.valueError "JSONDecodeError") ∧
    extract_json_spec c4_reply = .ok (.dict [("a", .int 1)]) :=
  ⟨rfl, rfl, rfl, rfl, rfl⟩

/-- C4 as amended: the extractor first attempts a direct parse; on
failure it selects exactly one fallback candidate — the labeled-fence
interior whenever the backtick-json marker is present (with no further
fallback when that parse fails), else the plain-fence interior when a
fence is present, else it fails. -/
theorem c4_extractor_fallback_order (text : String) :
    (∀ v, json_loads (py_strip text) = some v → _extract_json text = .ok v) ∧
    (json_loads (py_strip text) = none → py_has_sub (py_strip text) "```json" = true →
      _extract_json text =
        (match json_loads (fence_json_interior (py_strip text)) with
         | some v => .ok v
         | none => .error (.valueError "JSONDecodeError"))) ∧
    (json_loads (py_strip text) = none → py_has_sub (py_strip text) "```json" = false →
      py_has_sub (py_strip text) "```" = true →
      _extract_json text =
        (match json_loads (fence_any_interior (py_strip text)) with
         | some v => .ok v
         | none => .error (.valueError "JSONDecodeError"))) ∧
    (json_loads (py_strip text) = none → py_has_sub (py_strip text) "```json" = false →
      py_has_sub (py_strip text) "```" = false →
      _extract_json text = .error (.valueError "JSONDecodeError")) := by
  refine ⟨fun v h => ?_, fun h0 h1 => ?_, fun h0 h1 h2 => ?_, fun h0 h1 h2 => ?_⟩
  · simp [_extract_json, h]
  · simp [_extract_json, h0, h1]
  · simp [_extract_json, h0, h1, h2]
  · simp [_extract_json, h0, h1, h2]

/-- Witness for C4 as amended: a prose-wrapped labeled fence is parsed
through the labeled-fence branch. -/
theorem c4_witness :
    _extract_json "Sure! ```json \x7b\"a\": 2\x7d ``` hope this helps" =
      .ok (.dict [("a", .int 2)]) :=
  ((c4_extractor_fallback_order "Sure! ```json \x7b\"a\": 2\x7d ``` hope this helps").2.1
    rfl rfl).trans rfl

/-- C5: when `start_date` is filled with a valid date and the submitted
`end_date` value parses to a date strictly before it, validation fails
with a non-empty error message, whatever the distance between the two
dates. -/
theorem c5_end_before_start_rejected (today : PyDate) (slots : Slots) (value : String)
    (de ds : PyDate)
    (hend : date_fromisoformat (py_strip value) = some de)
    (hfilled : Slots.get slots "start_date" "" ≠ "")
    (hstart : date_fromisoformat (Slots.get slots "start_date" "") = some ds)
    (hlt : py_date_lt de ds = true) :
    (validate_slot today slots "end_date" value).1 = false ∧
    (validate_slot today slots "end_date" value).2 ≠ "" := by
  have hne : py_strip value ≠ "" := by
    intro h
    rw [h] at hend
    simp [date_fromisoformat] at hend
  by_cases hpast : py_date_lt de today = true
  · simp [validate_slot, hne, check_date_slot, hend, hpast]
  · rw [Bool.not_eq_true] at hpast
    simp [validate_slot, hne, check_date_slot, hend, hpast, check_end_after_start,
      hfilled, hstart, hlt]

/-- Witness for C5: end date `2026-05-09` against start date
`2026-05-10`. -/
theorem c5_witness :
    (validate_slot ⟨2020, 1, 1⟩ [("start_date", "2026-05-10")] "end_date" "2026-05-09").1
        = false ∧
    (validate_slot ⟨2020, 1, 1⟩ [("start_date", "2026-05-10")] "end_date" "2026-05-09").2
        ≠ "" :=
  c5_end_before_start_rejected ⟨2020, 1, 1⟩ [("start_date", "2026-05-10")] "2026-05-09"
    ⟨2026, 5, 9⟩ ⟨2026, 5, 10⟩ (by decide) (by decide) (by decide) (by decide)

/-- Day entries that are dicts without an `estimated_cost` key contribute
the default `0`, so the running total passes through unchanged. -/
theorem sum_day_costs_from_all_missing (total : Int) (ds : List PyVal)
    (h : ∀ d ∈ ds, ∃ entries, d = PyVal.dict entries ∧ entries.lookup "estimated_cost" = none) :
    _sum_day_costs_from total ds = .ok total := by
  induction ds generalizing total with
  | nil => rfl
  | cons d rest ih =>
    obtain ⟨entries, rfl, hlk⟩ := h _ (List.mem_cons_self d rest)
    have hrest := fun d hd => h d (List.mem_cons_of_mem _ hd)
    simp only [_sum_day_costs_from, py_dict_get, hlk, Option.getD_none, py_int_of_val]
    rw [show total + 0 = total by ring]
    exact ih total hrest

/-- C9: a planner `days` list all of whose entries are dicts lacking the
`estimated_cost` key sums silently to `0` — a missing key is treated as
cost `0`, not as an error. -/
theorem c9_missing_cost_defaults_to_zero (ds : List PyVal)
    (h : ∀ d ∈ ds, ∃ entries, d = PyVal.dict entries ∧ entries.lookup "estimated_cost" = none) :
    _sum_day_costs (.list ds) = .ok 0 :=
  sum_day_costs_from_all_missing 0 ds h

/-- Witness for C9: two days, one with other keys and one empty. -/
theorem c9_witness :
    _sum_day_costs (.list [.dict [("day", .int 1)], .dict []]) = .ok 0 :=
  c9_missing_cost_defaults_to_zero _ (by
    intro d hd
    rcases List.mem_cons.mp hd with rfl | hd2
    · exact ⟨_, rfl, rfl⟩
    · rcases List.mem_cons.mp hd2 with rfl | hd3
      · exact ⟨_, rfl, rfl⟩
      · exact absurd hd3 (List.not_mem_nil d))

/-- A planner reply whose arithmetic is consistent with a budget of
`2000`. -/
def consistent_plan_text : String :=
  "\x7b\"days\": [\x7b\"estimated_cost\": 800\x7d, \x7b\"estimated_cost\": 700\x7d], \"budget_breakdown\": \x7b\"stay\": 800, \"food\": 400, \"transport\": 300, \"activities\": 300, \"buffer\": 200\x7d, \"total_estimated_cost\": 1500\x7d"

/-- The draft `consistent_plan_text` decodes to. -/
def consistent_plan : PyVal :=
  .dict [("days", .list [.dict [("estimated_cost", .int 800)],
                         .dict [("estimated_cost", .int 700)]]),
         ("budget_breakdown", .dict [("stay", .int 800), ("food", .int 400),
                                     ("transport", .int 300), ("activities", .int 300),
                                     ("buffer", .int 200)]),
         ("total_estimated_cost", .int 1500)]

/-- A planner reply whose arithmetic is inconsistent with every budget
(day sum 5, claimed total 7, empty breakdown). -/
def inconsistent_plan_text : String :=
  "\x7b\"days\": [\x7b\"estimated_cost\": 5\x7d], \"budget_breakdown\": \x7b\x7d, \"total_estimated_cost\": 7\x7d"

/-- The draft `inconsistent_plan_text` decodes to. -/
def inconsistent_plan : PyVal :=
  .dict [("days", .list [.dict [("estimated_cost", .int 5)]]),
         ("budget_breakdown", .dict []),
         ("total_estimated_cost", .int 7)]

/-- C10: `validate_slot` accepts the budget answer `"30,000"` (commas
are stripped before parsing), yet `generate_plan` on a slot store
carrying that accepted value raises an uncaught `ValueError` at its bare
`int()` coercion — after one model call, before any invariant check. -/
theorem c10_comma_budget_crashes_generate :
    validate_slot ⟨2026, 10, 12⟩ [] "budget" "30,000" = (true, "") ∧
    generate_plan (fun n => if n = 0 then .ok consistent_plan_text else .ok "Looks great")
        [("budget", "30,000")] none none
      = (.error (.valueError "invalid literal for int with base 10"), 1) :=
  ⟨rfl, rfl⟩

/-- If every day entry is a dict and some entry carries an
`estimated_cost` value that `int()` rejects, the day-cost loop raises
the fixed `ValueError` whatever the running total. -/
theorem sum_day_costs_from_bad (total : Int) (ds : List PyVal)
    (hdicts : ∀ d ∈ ds, ∃ entries, d = PyVal.dict entries)
    (hbad : ∃ d ∈ ds, ∃ entries v, d = PyVal.dict entries ∧
      entries.lookup "estimated_cost" = some v ∧ ∃ err, py_int_of_val v = .error err) :
    _sum_day_costs_from total ds =
      .error (.valueError "Invalid day estimated_cost in planner output.") := by
  induction ds generalizing total with
  | nil => simp at hbad
  | cons d rest ih =>
    have hdicts_rest : ∀ x ∈ rest, ∃ entries, x = PyVal.dict entries :=
      fun x hx => hdicts x (List.mem_cons_of_mem _ hx)
    obtain ⟨entries, rfl⟩ := hdicts _ (List.mem_cons_self d rest)
    cases hlk : entries.lookup "estimated_cost" with
    | none =>
      have hbad_rest : ∃ x ∈ rest, ∃ entries₀ v, x = PyVal.dict entries₀ ∧
          entries₀.lookup "estimated_cost" = some v ∧
          ∃ err, py_int_of_val v = .error err := by
        rcases hbad with ⟨d0, hd0, entries₀, v, hdeq, hlk0, herr⟩
        rcases List.mem_cons.mp hd0 with rfl | hmem
        · cases hdeq
          rw [hlk] at hlk0
          cases hlk0
        · exact ⟨d0, hmem, entries₀, v, hdeq, hlk0, herr⟩
      simp only [_sum_day_costs_from, py_dict_get, hlk, Option.getD_none, py_int_of_val]
      rw [show total + 0 = total by ring]
      exact ih total hdicts_rest hbad_rest
    | some v0 =>
      cases hco : py_int_of_val v0 with
      | error err =>
        simp [_sum_day_costs_from, py_dict_get, hlk, hco]
      | ok n =>
        have hbad_rest : ∃ x ∈ rest, ∃ entries₀ v, x = PyVal.dict entries₀ ∧
            entries₀.lookup "estimated_cost" = some v ∧
            ∃ err, py_int_of_val v = .error err := by
          rcases hbad with ⟨d0, hd0, entries₀, v, hdeq, hlk0, err, herr⟩
          rcases List.mem_cons.mp hd0 with rfl | hmem
          · cases hdeq
            rw [hlk] at hlk0
            cases hlk0
            rw [hco] at herr
            cases herr
          · exact ⟨d0, hmem, entries₀, v, hdeq, hlk0, err, herr⟩
        simp only [_sum_day_costs_from, py_dict_get, hlk, Option.getD_some, hco]
        exact ih (total + n) hdicts_rest hbad_rest

/-- C7: a planner draft that passes the structural checks but holds a
day entry whose `estimated_cost` is present and not coercible to an
integer makes `generate_plan` fail hard after a single model call —
the cost is never read as zero. -/
theorem c7_non_numeric_cost_fails_hard (oracle : Nat → Except String String)
    (slots : Slots) (prev chg : Option String) (t : String) (plan : PyVal)
    (ds : List PyVal) (B : Int)
    (h0 : call_llm oracle 0 = .ok t)
    (h1 : _extract_json t = .ok plan)
    (h2 : pv_is_dict plan = true)
    (h3 : pv_has_key plan "days" = true)
    (h4 : pv_has_key plan "budget_breakdown" = true)
    (h5 : py_int_of_string (Slots.get slots "budget" "0") = some B)
    (h6 : py_dict_get plan "days" (.list []) = .ok (.list ds))
    (hdicts : ∀ d ∈ ds, ∃ entries, d = PyVal.dict entries)
    (hbad : ∃ d ∈ ds, ∃ entries v, d = PyVal.dict entries ∧
      entries.lookup "estimated_cost" = some v ∧ ∃ err, py_int_of_val v = .error err) :
    generate_plan oracle slots prev chg =
      (.error (.valueError "Invalid day estimated_cost in planner output."), 1) := by
  have hsum := sum_day_costs_from_bad 0 ds hdicts hbad
  have hps : plan_sums plan =
      .error (.valueError "Invalid day estimated_cost in planner output.") := by
    simp only [plan_sums, h6, _sum_day_costs, hsum]
  have hfs : first_stage oracle slots =
      .error (.valueError "Invalid day estimated_cost in planner output.") := by
    simp [first_stage, h0, h1, h2, h3, h4, h5, hps]
  simp [generate_plan, hfs]

/-- A planner reply with a non-numeric day cost. -/
def bad_cost_plan_text : String :=
  "\x7b\"days\": [\x7b\"estimated_cost\": \"abc\"\x7d], \"budget_breakdown\": \x7b\x7d, \"total_estimated_cost\": 0\x7d"

/-- The draft `bad_cost_plan_text` decodes to. -/
def bad_cost_plan : PyVal :=
  .dict [("days", .list [.dict [("estimated_cost", .str "abc")]]),
         ("budget_breakdown", .dict []),
         ("total_estimated_cost", .int 0)]

/-- Witness for C7: the cost `"abc"` aborts generation after the
planner call. -/
theorem c7_witness :
    generate_plan (fun _ => .ok bad_cost_plan_text) [("budget", "2000")] none none
      = (.error (.valueError "Invalid day estimated_cost in planner output."), 1) :=
  c7_non_numeric_cost_fails_hard _ _ none none bad_cost_plan_text bad_cost_plan
    [.dict [("estimated_cost", .str "abc")]] 2000 rfl rfl rfl rfl rfl rfl rfl
    (by
      intro d hd
      rcases List.mem_cons.mp hd with rfl | hd2
      · exact ⟨_, rfl⟩
      · exact absurd hd2 (List.not_mem_nil d))
    ⟨.dict [("estimated_cost", .str "abc")], List.mem_cons_self _ _,
     [("estimated_cost", .str "abc")], .str "abc", rfl, rfl,
     .valueError "invalid literal for int with base 10", rfl⟩

/-- The humanizer stage returns the draft it was given, untouched, and
makes exactly one call. -/
theorem humanizer_stage_ok {oracle : Nat → Except String String} {idx : Nat}
    {p q : PyVal} {f : String} {n : Nat}
    (h : humanizer_stage oracle idx p = (.ok (q, f), n)) : q = p ∧ n = idx + 1 := by
  unfold humanizer_stage at h
  cases hc : call_llm oracle idx with
  | error e =>
    rw [hc] at h
    simp at h
  | ok c =>
    rw [hc] at h
    simp only [Prod.mk.injEq, Except.ok.injEq] at h
    exact ⟨h.1.1.symm, h.2.symm⟩

/-- The humanizer stage always makes exactly one call. -/
theorem humanizer_stage_count (oracle : Nat → Except String String) (idx : Nat)
    (p : PyVal) : (humanizer_stage oracle idx p).2 = idx + 1 := by
  unfold humanizer_stage
  cases hc : call_llm oracle idx <;> simp

/-- A successful planner stage certifies the coerced budget and the
verified sums of the draft it returns. -/
theorem first_stage_ok {oracle : Nat → Except String String} {slots : Slots}
    {p : PyVal} {B : Int} {s : Int × Int × Int}
    (h : first_stage oracle slots = .ok (p, B, s)) :
    py_int_of_string (Slots.get slots "budget" "0") = some B ∧ plan_sums p = .ok s := by
  unfold first_stage at h
  cases h0 : call_llm oracle 0 <;> simp only [h0] at h
  case error e => cases h
  case ok t =>
    cases h1 : _extract_json t <;> simp only [h1] at h
    case error e => cases h
    case ok raw_plan =>
      by_cases h2 : pv_is_dict raw_plan = true
      case neg =>
        rw [if_pos h2] at h
        cases h
      case pos =>
        rw [if_neg (not_not_intro h2)] at h
        by_cases h3 : pv_has_key raw_plan "days" = true ∧
            pv_has_key raw_plan "budget_breakdown" = true
        case neg =>
          rw [if_pos h3] at h
          cases h
        case pos =>
          rw [if_neg (not_not_intro h3)] at h
          cases h4 : py_int_of_string (Slots.get slots "budget" "0") <;> simp only [h4] at h
          case none => cases h
          case some total_budget =>
            cases h5 : plan_sums raw_plan <;> simp only [h5] at h
            case error e => cases h
            case ok s0 =>
              cases h
              exact ⟨rfl, h5⟩

/-- A successful correction check certifies the re-verified sums of the
corrected draft. -/
theorem correction_checks_ok {oracle : Nat → Except String String}
    {q : PyVal} {s : Int × Int × Int}
    (h : correction_checks oracle = .ok (q, s)) : plan_sums q = .ok s := by
  unfold correction_checks at h
  cases h0 : call_llm oracle 1 <;> simp only [h0] at h
  case error e => cases h
  case ok t =>
    cases h1 : _extract_json t <;> simp only [h1] at h
    case error e => cases h
    case ok raw_plan =>
      cases h2 : plan_sums raw_plan <;> simp only [h2] at h
      case error e => cases h
      case ok s0 =>
        cases h
        exact h2

/-- Reading the three comparisons out of a false invariant test. -/
theorem invariants_ok_of_not_violated {s : Int × Int × Int} {B : Int}
    (h : invariants_violated s B = false) : s.1 = s.2.1 ∧ s.2.1 ≤ B ∧ s.2.2 = B := by
  unfold invariants_violated at h
  simp only [Bool.or_eq_false_iff, decide_eq_false_iff_not, not_not, not_lt] at h
  exact ⟨h.1.1, h.1.2, h.2⟩

/-- A draft accepted by the correction stage passed the re-verification. -/
theorem correction_stage_ok {oracle : Nat → Except String String} {B : Int}
    {p : PyVal} {f : String} {n : Nat}
    (h : correction_stage oracle B = (.ok (p, f), n)) :
    ∃ s, plan_sums p = .ok s ∧ invariants_violated s B = false ∧ n = 3 := by
  unfold correction_stage at h
  cases hc : correction_checks oracle <;> simp only [hc] at h
  case error e => simp at h
  case ok pr =>
    obtain ⟨q, s⟩ := pr
    simp only at h
    by_cases hv : invariants_violated s B = true
    · rw [if_pos hv] at h
      simp at h
    · rw [if_neg hv] at h
      obtain ⟨rfl, hn⟩ := humanizer_stage_ok h
      exact ⟨s, correction_checks_ok hc, Bool.not_eq_true (invariants_violated s B) ▸ hv, by omega⟩

/-- C1: every draft `generate_plan` accepts and returns satisfies the
three arithmetic invariants — the day-cost sum equals the coerced
`total_estimated_cost`, that total is at most the declared budget slot
value, and the five breakdown components sum to that budget exactly. -/
theorem c1_accepted_draft_invariants (oracle : Nat → Except String String)
    (slots : Slots) (prev chg : Option String) (plan : PyVal) (final : String) (n : Nat)
    (h : generate_plan oracle slots prev chg = (.ok (plan, final), n)) :
    ∃ B s, py_int_of_string (Slots.get slots "budget" "0") = some B ∧
      plan_sums plan = .ok s ∧ s.1 = s.2.1 ∧ s.2.1 ≤ B ∧ s.2.2 = B := by
  unfold generate_plan at h
  cases h1 : first_stage oracle slots <;> simp only [h1] at h
  case error e => simp at h
  case ok tri =>
    obtain ⟨p, B, s⟩ := tri
    simp only at h
    obtain ⟨hB, hs⟩ := first_stage_ok h1
    by_cases hv : invariants_violated s B = true
    · rw [if_pos hv] at h
      obtain ⟨s2, hs2, hnv, _⟩ := correction_stage_ok h
      obtain ⟨e1, e2, e3⟩ := invariants_ok_of_not_violated hnv
      exact ⟨B, s2, hB, hs2, e1, e2, e3⟩
    · rw [if_neg hv] at h
      obtain ⟨rfl, _⟩ := humanizer_stage_ok h
      obtain ⟨e1, e2, e3⟩ :=
        invariants_ok_of_not_violated (Bool.not_eq_true (invariants_violated s B) ▸ hv)
      exact ⟨B, s, hB, hs, e1, e2, e3⟩

/-- Witness for C1: a consistent draft against a budget of 2000 is
accepted, and its certified sums are (1500, 1500, 2000). -/
theorem c1_witness :
    generate_plan (fun n => if n = 0 then .ok consistent_plan_text else .ok "Enjoy your trip")
        [("budget", "2000")] none none
      = (.ok (consistent_plan, "Enjoy your trip"), 2) ∧
    ∃ B s, py_int_of_string (Slots.get [("budget", "2000")] "budget" "0") = some B ∧
      plan_sums consistent_plan = .ok s ∧ s.1 = s.2.1 ∧ s.2.1 ≤ B ∧ s.2.2 = B :=
  ⟨rfl, c1_accepted_draft_invariants
    (fun n => if n = 0 then .ok consistent_plan_text else .ok "Enjoy your trip")
    [("budget", "2000")] none none consistent_plan "Enjoy your trip" 2 rfl⟩

/-- C2: one `generate_plan` invocation issues at most three model calls;
a first draft that fails verification routes to the single correction
stage; and a corrected draft that fails re-verification is the terminal
`PlanningError` after exactly two calls — there is no further retry. -/
theorem c2_correction_at_most_once (oracle : Nat → Except String String)
    (slots : Slots) (prev chg : Option String) :
    (generate_plan oracle slots prev chg).2 ≤ 3 ∧
    (∀ p B s, first_stage oracle slots = .ok (p, B, s) → invariants_violated s B = true →
      generate_plan oracle slots prev chg = correction_stage oracle B) ∧
    (∀ B q s, correction_checks oracle = .ok (q, s) → invariants_violated s B = true →
      correction_stage oracle B = (.error (.valueError budget_guardrail_msg), 2)) := by
  refine ⟨?_, ?_, ?_⟩
  · unfold generate_plan
    cases h1 : first_stage oracle slots
    case error e => simp
    case ok tri =>
      obtain ⟨p, B, s⟩ := tri
      simp only
      by_cases hv : invariants_violated s B = true
      · rw [if_pos hv]
        unfold correction_stage
        cases hc : correction_checks oracle
        · simp
        · next pr =>
          obtain ⟨q, s2⟩ := pr
          simp only
          by_cases hv2 : invariants_violated s2 B = true
          · rw [if_pos hv2]
            omega
          · rw [if_neg hv2]
            rw [humanizer_stage_count]
      · rw [if_neg hv]
        rw [humanizer_stage_count]
        omega
  · intro p B s h1 hv
    unfold generate_plan
    rw [h1]
    simp only
    rw [if_pos hv]
  · intro B q s hc hv
    unfold correction_stage
    rw [hc]
    simp only
    rw [if_pos hv]

/-- Witness for C2: a planner that returns the same inconsistent draft
twice ends in the terminal planning failure after exactly two calls. -/
theorem c2_witness :
    generate_plan (fun _ => .ok inconsistent_plan_text) [("budget", "2000")] none none
      = (.error (.valueError budget_guardrail_msg), 2) :=
  ((c2_correction_at_most_once (fun _ => .ok inconsistent_plan_text)
      [("budget", "2000")] none none).2.1
    inconsistent_plan 2000 (5, 7, 0) rfl rfl).trans
  ((c2_correction_at_most_once (fun _ => .ok inconsistent_plan_text)
      [("budget", "2000")] none none).2.2
    2000 inconsistent_plan (5, 7, 0) rfl rfl)

/-- C6: whenever `handle_slot_filling` completes a turn, a failed
validation of the normalized input leaves the question index and every
stored slot value untouched, and the index moves — by exactly one — only
on a turn whose validation succeeded. -/
theorem c6_index_advances_only_on_valid (guard_outcome : Except PyError PyVal)
    (norm_outcome : Except PyError String) (today : PyDate) (st : SessionState)
    (user_text : String) (st2 : SessionState) (gen : Bool)
    (h : handle_slot_filling guard_outcome norm_outcome today st user_text = .ok (st2, gen)) :
    ((validate_slot today st.slots (QUESTIONS.getD st.current_question_idx ("", "")).1
        (normalized_of norm_outcome user_text)).1 = false →
      st2.current_question_idx = st.current_question_idx ∧ st2.slots = st.slots) ∧
    (st2.current_question_idx ≠ st.current_question_idx →
      (validate_slot today st.slots (QUESTIONS.getD st.current_question_idx ("", "")).1
        (normalized_of norm_outcome user_text)).1 = true ∧
      st2.current_question_idx = st.current_question_idx + 1) := by
  unfold handle_slot_filling at h
  simp only at h
  cases hd : py_dict_get (decision_of guard_outcome) "decision" (.str "ALLOW") <;>
    simp only [hd] at h
  case error e => cases h
  case ok dv =>
    cases hu : py_str_upper_of dv <;> simp only [hu] at h
    case error e => cases h
    case ok dn =>
      by_cases hg : dn = "GREETING"
      · rw [if_pos hg] at h
        cases h
        exact ⟨fun _ => ⟨rfl, rfl⟩, fun hne => absurd rfl hne⟩
      · rw [if_neg hg] at h
        by_cases ho : (dn = "OFFTOPIC" || dn = "UNSAFE") = true
        · rw [if_pos ho] at h
          cases hm : py_dict_get (decision_of guard_outcome) "assistant_message" .null <;>
            simp only [hm] at h
          · cases h
          · cases h
            exact ⟨fun _ => ⟨rfl, rfl⟩, fun hne => absurd rfl hne⟩
        · rw [if_neg ho] at h
          by_cases hvf : (validate_slot today st.slots
              (QUESTIONS.getD st.current_question_idx ("", "")).1
              (normalized_of norm_outcome user_text)).1 = false
          · rw [if_pos hvf] at h
            cases h
            exact ⟨fun _ => ⟨rfl, rfl⟩, fun hne => absurd rfl hne⟩
          · rw [if_neg hvf] at h
            have hvt : (validate_slot today st.slots
                (QUESTIONS.getD st.current_question_idx ("", "")).1
                (normalized_of norm_outcome user_text)).1 = true := by
              simpa using hvf
            by_cases hidx : st.current_question_idx + 1 < QUESTIONS.length
            · rw [if_pos hidx] at h
              cases h
              refine ⟨fun hfalse => ?_, fun _ => ⟨hvt, rfl⟩⟩
              rw [hvt] at hfalse
              cases hfalse
            · rw [if_neg hidx] at h
              cases h
              refine ⟨fun hfalse => ?_, fun _ => ⟨hvt, rfl⟩⟩
              rw [hvt] at hfalse
              cases hfalse

/-- The session state the C6 witness starts from. -/
def c6_state : SessionState := ⟨"slot_filling", 0, [("origin", "")], []⟩

/-- Witness for C6: an empty answer to the origin question fails
validation and leaves index and slots unchanged. -/
theorem c6_witness :
    (⟨"slot_filling", 0, [("origin", "")],
      ["This answer is empty. Please provide a valid value.\n\nPlease answer again:\nWhat is your origin city?"]⟩ :
        SessionState).current_question_idx = c6_state.current_question_idx ∧
    (⟨"slot_filling", 0, [("origin", "")],
      ["This answer is empty. Please provide a valid value.\n\nPlease answer again:\nWhat is your origin city?"]⟩ :
        SessionState).slots = c6_state.slots :=
  (c6_index_advances_only_on_valid (.ok (.dict [("decision", .str "ALLOW")])) (.ok "")
    ⟨2026, 1, 1⟩ c6_state "" _ false rfl).1 rfl

/-- C8: when the guardrail call fails with any error, slot filling
proceeds exactly as for an `ALLOW` decision — the normalized input is
validated, a success stores it and advances the index, a failure
re-asks — so a classifier failure never blocks the turn. -/
theorem c8_classifier_failure_fails_open (e : PyError)
    (norm_outcome : Except PyError String) (today : PyDate) (st : SessionState)
    (user_text : String) :
    Except.map (fun r => (r.1.current_question_idx, r.1.slots))
      (handle_slot_filling (.error e) norm_outcome today st user_text)
    = .ok
      (if (validate_slot today st.slots (QUESTIONS.getD st.current_question_idx ("", "")).1
            (normalized_of norm_outcome user_text)).1 then
        (st.current_question_idx + 1,
         Slots.set st.slots (QUESTIONS.getD st.current_question_idx ("", "")).1
           (py_strip (normalized_of norm_outcome user_text)))
       else (st.current_question_idx, st.slots)) := by
  unfold handle_slot_filling
  simp only
  rw [show py_dict_get (decision_of (.error e)) "decision" (.str "ALLOW")
        = .ok (.str "ALLOW") from rfl]
  simp only
  rw [show py_str_upper_of (.str "ALLOW") = .ok "ALLOW" from rfl]
  simp only
  rw [if_neg (show ¬ ("ALLOW" = "GREETING") by decide)]
  rw [if_neg (show ¬ ((("ALLOW" = "OFFTOPIC" : Bool) || ("ALLOW" = "UNSAFE" : Bool)) = true)
        by decide)]
  by_cases hvf : (validate_slot today st.slots
      (QUESTIONS.getD st.current_question_idx ("", "")).1
      (normalized_of norm_outcome user_text)).1 = false
  · rw [if_pos hvf]
    rw [if_neg (by rw [hvf]; decide)]
    rfl
  · rw [if_neg hvf]
    have hvt : (validate_slot today st.slots
        (QUESTIONS.getD st.current_question_idx ("", "")).1
        (normalized_of norm_outcome user_text)).1 = true := by
      simpa using hvf
    rw [if_pos hvt]
    by_cases hidx : st.current_question_idx + 1 < QUESTIONS.length
    · rw [if_pos hidx]
      rfl
    · rw [if_neg hidx]
      rfl

end NavMarg
